import Mathlib

/-!
Verification development for the rabbitmq_exporter source (`src/main.go`).

Shallow embedding choices:
* JSON values decoded by `encoding/json` into `interface{}` are modelled by
  the inductive `Json`; Go's `float64` JSON numbers are modelled as `Rat`
  (no claim in scope depends on floating-point rounding).
* Go's runtime panics (failed unchecked type assertions, out-of-range
  indexing) and the explicit `panic(err)` in `sendApiRequest` are modelled
  by the error side of `Except GoPanic`.
* The Prometheus metric vectors (`GaugeVec`/`CounterVec`, all updated via
  `.Set`) are modelled by `Registry`, a map from (metric name, node label)
  to the last set value, with `observe` as the `.WithLabelValues(l).Set(v)`
  operation.
* The network and the JSON decoder are external to the program; one poll
  iteration receives their behaviour through `PollEnv` (a transport error
  makes `sendApiRequest` panic; a decode error in `decodeObj` /
  `decodeObjArray` merely logs and yields the zero value, i.e. a nil map /
  nil slice, which is modelled by `Json.null` / `[]`).
* `time.ParseDuration` is Go standard library, not repository code, so it
  enters as an oracle `String → Option Int` (durations in nanoseconds,
  mirroring `time.Duration`).
-/

namespace RabbitmqExporter

/-- A decoded JSON value, as produced by Go's `encoding/json` into
`interface{}` (numbers become `float64`, here `Rat`). -/
inductive Json where
  | null
  | bool (b : Bool)
  | num (v : Rat)
  | str (s : String)
  | arr (elems : List Json)
  | obj (fields : List (String × Json))

/-- Indexing a decoded `map[string]interface{}` with a key: `response[k]`.
On a non-object (including the nil map produced by a decode error) every
lookup yields `none`, matching Go's nil-interface result. -/
def Json.get : Json → String → Option Json
  | .obj fields, k => (fields.find? (fun kv => kv.1 == k)).map (·.2)
  | _, _ => none

/-- The Go runtime faults and explicit panics that can occur in the source:
`panic(err)` in `sendApiRequest` on a transport error, a failed unchecked
type assertion `x.(T)`, and indexing an empty slice (`response[0]`). -/
inductive GoPanic where
  | httpError
  | typeAssertion
  | indexOutOfRange
  deriving Repr, DecidableEq

deriving instance DecidableEq for Except

/-- A `map[string]float64` as built in `getOverview`. -/
abbrev FloatMap := List (String × Rat)

/-- Lookup in a `map[string]float64`, reporting presence. -/
def FloatMap.findVal (m : FloatMap) (k : String) : Option Rat :=
  (m.find? (fun kv => kv.1 == k)).map (·.2)

/-- Go map indexing `m[k]` on a `map[string]float64`: a missing key yields
the zero value `0`. -/
def FloatMap.getZ (m : FloatMap) (k : String) : Rat :=
  (m.findVal k).getD 0

/-- The `object_totals` loop of `getOverview` (`main.go` lines 228-231):
`objectTotals[k] = v.(float64)` is an unchecked assertion, so any
non-numeric value panics. -/
def strictFloats : List (String × Json) → Except GoPanic FloatMap
  | [] => .ok []
  | (k, .num v) :: rest => (strictFloats rest).map (fun m => (k, v) :: m)
  | _ :: _ => .error .typeAssertion

/-- The `queue_totals` / `message_stats` loops (`main.go` lines 233-247):
a `switch v.(type)` keeps only `float64` values and silently skips the
rest. -/
def tolerantFloats : List (String × Json) → FloatMap
  | [] => []
  | (k, .num v) :: rest => (k, v) :: tolerantFloats rest
  | _ :: rest => tolerantFloats rest

/-- `response[k].(map[string]interface{})`: an unchecked type assertion
that panics when the key is absent (nil interface) or the value is not an
object. -/
def asObjFields (j : Json) (k : String) : Except GoPanic (List (String × Json)) :=
  match j.get k with
  | some (.obj fields) => .ok fields
  | _ => .error .typeAssertion

/-- `nodename, _ := response["node"].(string)` (`main.go` line 249): the
comma-ok assertion, yielding `""` when the field is absent or not a
string. -/
def nodenameOf (j : Json) : String :=
  match j.get "node" with
  | some (.str s) => s
  | _ => ""

/-- The values `getOverview` extracts from the decoded overview response
before it writes any metric (`main.go` lines 228-249). -/
structure OverviewData where
  objectTotals : FloatMap
  queueTotals : FloatMap
  messageStats : FloatMap
  nodename : String
  deriving Repr, DecidableEq

/-- The extraction phase of `getOverview` (`main.go` lines 228-249), in
source order: `object_totals` (strict values), `queue_totals` and
`message_stats` (tolerant values), then the node name.  All of it happens
before the first `.Set` call. -/
def extractOverview (response : Json) : Except GoPanic OverviewData :=
  match asObjFields response "object_totals" with
  | .error e => .error e
  | .ok otFields =>
    match strictFloats otFields with
    | .error e => .error e
    | .ok objectTotals =>
      match asObjFields response "queue_totals" with
      | .error e => .error e
      | .ok qtFields =>
        match asObjFields response "message_stats" with
        | .error e => .error e
        | .ok msFields =>
          .ok ⟨objectTotals, tolerantFloats qtFields, tolerantFloats msFields,
               nodenameOf response⟩

/-- One metric update `name{node=label} = value`. -/
structure MetricPoint where
  name : String
  node : String
  value : Rat
  deriving Repr, DecidableEq

/-- The fifteen `.Set` calls of `getOverview` (`main.go` lines 251-265), in
source order, with the metric `Name` strings from the vector declarations
(lines 22-194). -/
def overviewPoints (d : OverviewData) : List MetricPoint :=
  [⟨"channels_total", d.nodename, d.objectTotals.getZ "channels"⟩,
   ⟨"connections_total", d.nodename, d.objectTotals.getZ "connections"⟩,
   ⟨"consumers_total", d.nodename, d.objectTotals.getZ "consumers"⟩,
   ⟨"queues_total", d.nodename, d.objectTotals.getZ "queues"⟩,
   ⟨"exchanges_total", d.nodename, d.objectTotals.getZ "exchanges"⟩,
   ⟨"messages", d.nodename, d.queueTotals.getZ "messages"⟩,
   ⟨"messages_ready", d.nodename, d.queueTotals.getZ "messages_ready"⟩,
   ⟨"messages_unacknowledged", d.nodename, d.queueTotals.getZ "messages_unacknowledged"⟩,
   ⟨"messages_redelivered", d.nodename, d.messageStats.getZ "redeliver"⟩,
   ⟨"messages_confirmed", d.nodename, d.messageStats.getZ "confirm"⟩,
   ⟨"messages_delivered", d.nodename, d.messageStats.getZ "deliver"⟩,
   ⟨"messages_published", d.nodename, d.messageStats.getZ "publish"⟩,
   ⟨"messages_acked", d.nodename, d.messageStats.getZ "ack"⟩,
   ⟨"messages_delivered_get", d.nodename, d.messageStats.getZ "deliver_get"⟩,
   ⟨"messages_delivered_no_ack", d.nodename, d.messageStats.getZ "deliver_no_ack"⟩]

/-- The metric names written by `getOverview`. -/
def overviewMetricNames : List String :=
  ["channels_total", "connections_total", "consumers_total", "queues_total",
   "exchanges_total", "messages", "messages_ready", "messages_unacknowledged",
   "messages_redelivered", "messages_confirmed", "messages_delivered",
   "messages_published", "messages_acked", "messages_delivered_get",
   "messages_delivered_no_ack"]

/-- The mapping part of `getOverview`, viewed as the spec's
`mapOverview(obj) -> sequence of MetricPoint`: extraction followed by the
fifteen points in `.Set` order. -/
def mapOverview (response : Json) : Except GoPanic (List MetricPoint) :=
  (extractOverview response).map overviewPoints

/-- The Prometheus registry surface: last value set for each
(metric name, node label) pair. -/
abbrev Registry := List ((String × String) × Rat)

/-- `vec.WithLabelValues(label).Set(value)`: overwrite the stored value for
the (name, label) pair. -/
def observe (r : Registry) (name label : String) (v : Rat) : Registry :=
  ((name, label), v) :: r.filter (fun e => !(e.1 == (name, label)))

/-- Read the current registry value for a (name, label) pair, as the
exposition endpoint does. -/
def lookupVal (r : Registry) (k : String × String) : Option Rat :=
  (r.find? (fun e => e.1 == k)).map (·.2)

/-- Perform a sequence of `.Set` calls left to right. -/
def applyPoints (r : Registry) (ps : List MetricPoint) : Registry :=
  ps.foldl (fun acc p => observe acc p.name p.node p.value) r

/-- `getOverview` (`main.go` lines 224-266) acting on the registry, given
the already-decoded overview response: extract everything, then perform
the fifteen `.Set` calls; any extraction panic aborts before the first
write. -/
def getOverview (response : Json) (r : Registry) : Except GoPanic Registry :=
  (extractOverview response).map (fun d => applyPoints r (overviewPoints d))

/-- One element of the decoded `/api/queues` array
(`[]map[string]interface{}`). -/
abbrev QueueObj := List (String × Json)

/-- Indexing one queue object: `v[k]`. -/
def QueueObj.get (q : QueueObj) (k : String) : Option Json :=
  (q.find? (fun kv => kv.1 == k)).map (·.2)

/-- `response[0]["node"].(string)` (`main.go` line 271): indexing an empty
slice is a runtime panic; a missing or non-string `node` fails the
unchecked assertion. -/
def firstNodename : List QueueObj → Except GoPanic String
  | [] => .error .indexOutOfRange
  | q :: _ =>
    match q.get "node" with
    | some (.str s) => .ok s
    | _ => .error .typeAssertion

/-- The summation loop of `getNumberOfMessages` (`main.go` lines 273-276):
`total_messages += v["messages"].(float64)` with an unchecked assertion. -/
def sumMessages : List QueueObj → Rat → Except GoPanic Rat
  | [], acc => .ok acc
  | q :: rest, acc =>
    match q.get "messages" with
    | some (.num v) => sumMessages rest (acc + v)
    | _ => .error .typeAssertion

/-- The mapping part of `getNumberOfMessages`, viewed as the spec's
`mapQueueMessages(array) -> MetricPoint`: node name from element zero,
then the sum of the `messages` fields, starting from `0.0`. -/
def mapQueueMessages (response : List QueueObj) : Except GoPanic MetricPoint :=
  match firstNodename response with
  | .error e => .error e
  | .ok nodename =>
    match sumMessages response 0 with
    | .error e => .error e
    | .ok total => .ok ⟨"messages_total", nodename, total⟩

/-- `getNumberOfMessages` (`main.go` lines 268-278) acting on the
registry, given the already-decoded queues response. -/
def getNumberOfMessages (response : List QueueObj) (r : Registry) : Except GoPanic Registry :=
  (mapQueueMessages response).map (fun p => observe r p.name p.node p.value)

/-- Whether a queue object has a numeric `messages`-style field. -/
def isNumField (q : QueueObj) (k : String) : Bool :=
  match q.get k with
  | some (.num _) => true
  | _ => false

/-- The numeric value of a field of a queue object (0 when absent). -/
def numFieldValue (q : QueueObj) (k : String) : Rat :=
  match q.get k with
  | some (.num v) => v
  | _ => 0

/-- Stated from the spec's words for comparison in claim C4: "sums the
`messages` field across every element of the queue array". -/
def specSumOfMessages (response : List QueueObj) : Rat :=
  (response.map (fun q => numFieldValue q "messages")).sum

/-- The `Node` struct of the source (`main.go` lines 202-208). -/
structure Node where
  Name : String
  Url : String
  Uname : String
  Password : String
  Interval : String
  deriving Repr, DecidableEq

/-- The `Config` struct of the source (`main.go` lines 196-200). -/
structure Config where
  Nodes : List Node
  Port : String
  Interval : String
  deriving Repr, DecidableEq

/-- The interval resolution inside `updateNodesStats` (`main.go` lines
301-303): an empty node-level interval string is replaced by the global
default. -/
def resolveInterval (config : Config) (node : Node) : Node :=
  if node.Interval.length = 0 then { node with Interval := config.Interval } else node

/-- `updateNodesStats` (`main.go` lines 298-306): the list of node values
handed to the spawned `runRequestLoop` goroutines, one per configured
node, each with its effective interval resolved. -/
def updateNodesStats (config : Config) : List Node :=
  config.Nodes.map (resolveInterval config)

/-- The outcome the environment delivers for one HTTP fetch: a transport
error (which makes `sendApiRequest` panic) or a decoded body.  A JSON
decode error is not a separate outcome: `decodeObj`/`decodeObjArray` log
it and return the zero value, so it is represented by `Json.null` (nil
map) or `[]` (nil slice) in the body. -/
inductive FetchOutcome (α : Type) where
  | transportError
  | body (decoded : α)
  deriving Repr, DecidableEq

/-- What the environment (network + decoder) delivers to one poll
iteration: the overview fetch result and the queues fetch result. -/
structure PollEnv where
  overview : FetchOutcome Json
  queues : FetchOutcome (List QueueObj)

/-- One second as a `time.Duration` count of nanoseconds. -/
def second : Int := 1000000000

/-- The observable outcome of one `requestData` call: the registry after
the iteration, the duration slept at the end, and whether `log.Warn` was
called for an unparsable interval. -/
structure IterResult where
  registry : Registry
  sleep : Int
  warned : Bool
  deriving Repr

/-- The overview half of an iteration: `sendApiRequest` (panics on a
transport error) followed by `getOverview`'s decode-extract-write. -/
def runOverview (env : PollEnv) (r : Registry) : Except GoPanic Registry :=
  match env.overview with
  | .transportError => .error .httpError
  | .body j => getOverview j r

/-- The queues half of an iteration: `sendApiRequest` followed by
`getNumberOfMessages`. -/
def runQueues (env : PollEnv) (r : Registry) : Except GoPanic Registry :=
  match env.queues with
  | .transportError => .error .httpError
  | .body resp => getNumberOfMessages resp r

/-- `requestData` (`main.go` lines 308-325).  The deferred `recover` turns
any panic in the body into a fixed 10-second cooldown sleep, keeping
whatever registry writes already happened; on success the sleep is the
parsed node interval, falling back to 30 seconds (with a warning) when
`time.ParseDuration` fails.  The return type has no error channel: no
panic escapes this function. -/
def requestData (parseDur : String → Option Int) (node : Node) (env : PollEnv)
    (r : Registry) : IterResult :=
  match runOverview env r with
  | .error _ => ⟨r, 10 * second, false⟩
  | .ok r1 =>
    match runQueues env r1 with
    | .error _ => ⟨r1, 10 * second, false⟩
    | .ok r2 =>
      match parseDur node.Interval with
      | some dt => ⟨r2, dt, false⟩
      | none => ⟨r2, 30 * second, true⟩

/-- `runRequestLoop` (`main.go` lines 327-331): the infinite
`for { requestData(node) }`, observed as the trace of its iterations.
`runRequestLoop p node envs r0 n` is the result of iteration `n` when the
environment behaves as `envs` and the registry starts at `r0`. -/
def runRequestLoop (parseDur : String → Option Int) (node : Node)
    (envs : Nat → PollEnv) (r0 : Registry) : Nat → IterResult
  | 0 => requestData parseDur node (envs 0) r0
  | n + 1 =>
    requestData parseDur node (envs (n + 1))
      (runRequestLoop parseDur node envs r0 n).registry

/-- Whether the overview half of an iteration panics (transport error, or
any extraction fault in `getOverview`).  Independent of the registry. -/
def overviewFails (env : PollEnv) : Bool :=
  match env.overview with
  | .transportError => true
  | .body j =>
    match extractOverview j with
    | .error _ => true
    | .ok _ => false

/-- Whether the queues half of an iteration panics. -/
def queuesFails (env : PollEnv) : Bool :=
  match env.queues with
  | .transportError => true
  | .body resp =>
    match mapQueueMessages resp with
    | .error _ => true
    | .ok _ => false

/-- Whether any fetch/decode/map step of the iteration panics. -/
def pollFails (env : PollEnv) : Bool :=
  overviewFails env || queuesFails env

/-- The latest value a point sequence writes for a key, if any (later
writes win, matching the left-to-right `.Set` order). -/
def lastValue : List MetricPoint → (String × String) → Option Rat
  | [], _ => none
  | p :: ps, k =>
    match lastValue ps k with
    | some v => some v
    | none => if k = (p.name, p.node) then some p.value else none

/-- A decoded overview response carrying all fifteen target numeric fields
and a string `node` field, with arbitrary values. -/
def mkOverviewJson (label : String)
    (ch co cu qs ex m mr mu pb ak dl cf rd dg dn : Rat) : Json :=
  .obj [("node", .str label),
        ("object_totals", .obj
          [("channels", .num ch), ("connections", .num co),
           ("consumers", .num cu), ("queues", .num qs),
           ("exchanges", .num ex)]),
        ("queue_totals", .obj
          [("messages", .num m), ("messages_ready", .num mr),
           ("messages_unacknowledged", .num mu)]),
        ("message_stats", .obj
          [("publish", .num pb), ("ack", .num ak), ("deliver", .num dl),
           ("confirm", .num cf), ("redeliver", .num rd),
           ("deliver_get", .num dg), ("deliver_no_ack", .num dn)])]

/-- A decoded queues response with two queue objects on one node. -/
def mkQueuesJson (label : String) (c1 c2 : Rat) : List QueueObj :=
  [[("node", .str label), ("messages", .num c1)],
   [("node", .str label), ("messages", .num c2)]]

/-- A fully successful iteration environment. -/
def goodEnv (label : String)
    (ch co cu qs ex m mr mu pb ak dl cf rd dg dn c1 c2 : Rat) : PollEnv :=
  ⟨.body (mkOverviewJson label ch co cu qs ex m mr mu pb ak dl cf rd dg dn),
   .body (mkQueuesJson label c1 c2)⟩

/-- The registry facts that one fully successful iteration on `goodEnv`
establishes for its node label: every overview metric and the aggregate
`messages_total` hold the mapped values. -/
def goodIterLookups (r2 : Registry) (label : String)
    (ch co cu qs ex m mr mu pb ak dl cf rd dg dn tot : Rat) : Prop :=
  lookupVal r2 ("channels_total", label) = some ch ∧
  lookupVal r2 ("connections_total", label) = some co ∧
  lookupVal r2 ("consumers_total", label) = some cu ∧
  lookupVal r2 ("queues_total", label) = some qs ∧
  lookupVal r2 ("exchanges_total", label) = some ex ∧
  lookupVal r2 ("messages", label) = some m ∧
  lookupVal r2 ("messages_ready", label) = some mr ∧
  lookupVal r2 ("messages_unacknowledged", label) = some mu ∧
  lookupVal r2 ("messages_redelivered", label) = some rd ∧
  lookupVal r2 ("messages_confirmed", label) = some cf ∧
  lookupVal r2 ("messages_delivered", label) = some dl ∧
  lookupVal r2 ("messages_published", label) = some pb ∧
  lookupVal r2 ("messages_acked", label) = some ak ∧
  lookupVal r2 ("messages_delivered_get", label) = some dg ∧
  lookupVal r2 ("messages_delivered_no_ack", label) = some dn ∧
  lookupVal r2 ("messages_total", label) = some tot

/-- Whether all fifteen target numeric fields of the overview response are
present with numeric values inside well-formed groups. -/
def hasNumEntry (fields : List (String × Json)) (k : String) : Bool :=
  match ((fields.find? (fun kv => kv.1 == k)).map (·.2) : Option Json) with
  | some (.num _) => true
  | _ => false

/-- The spec's "all target numeric fields are present": the three groups
are objects and each documented field inside them is numeric. -/
def allTargetFieldsPresent (j : Json) : Bool :=
  match j.get "object_totals", j.get "queue_totals", j.get "message_stats" with
  | some (.obj ot), some (.obj qt), some (.obj ms) =>
    (["channels", "connections", "consumers", "queues", "exchanges"].all
      (hasNumEntry ot)) &&
    (["messages", "messages_ready", "messages_unacknowledged"].all
      (hasNumEntry qt)) &&
    (["publish", "ack", "deliver", "confirm", "redeliver", "deliver_get",
      "deliver_no_ack"].all (hasNumEntry ms))
  | _, _, _ => false

/-- The `OverviewData` that `extractOverview` yields on `mkOverviewJson`. -/
def goodData (label : String)
    (ch co cu qs ex m mr mu pb ak dl cf rd dg dn : Rat) : OverviewData :=
  ⟨[("channels", ch), ("connections", co), ("consumers", cu), ("queues", qs),
    ("exchanges", ex)],
   [("messages", m), ("messages_ready", mr), ("messages_unacknowledged", mu)],
   [("publish", pb), ("ack", ak), ("deliver", dl), ("confirm", cf),
    ("redeliver", rd), ("deliver_get", dg), ("deliver_no_ack", dn)],
   label⟩

/-- Whether the `node` field of the response is absent or not a string
(the case where the comma-ok assertion yields `""`). -/
def nodeFieldNotString (j : Json) : Bool :=
  match j.get "node" with
  | some (.str _) => false
  | _ => true

/-! Concrete inputs used by witnesses and counterexamples. -/

/-- A full overview response: node `"rabbit@x"`, all fifteen target fields
numeric. -/
def exOverviewJson : Json :=
  mkOverviewJson "rabbit@x" 1 2 3 4 5 6 7 8 9 10 11 12 13 14 15

/-- The extraction result on `exOverviewJson`. -/
def exGoodData : OverviewData :=
  goodData "rabbit@x" 1 2 3 4 5 6 7 8 9 10 11 12 13 14 15

/-- First queue object of the spec's worked example. -/
def exQ0 : QueueObj := [("node", Json.str "rabbit@a"), ("messages", Json.num 3)]

/-- Second queue object of the spec's worked example. -/
def exQ1 : QueueObj := [("node", Json.str "rabbit@a"), ("messages", Json.num 7)]

/-- The spec's worked queues array. -/
def exQueues : List QueueObj := [exQ0, exQ1]

/-- An overview response whose `queue_totals` group lacks the `messages`
field but is otherwise complete, with node `"n"`. -/
def exMissJson : Json :=
  .obj [("node", .str "n"),
        ("object_totals", .obj
          [("channels", .num 1), ("connections", .num 2), ("consumers", .num 3),
           ("queues", .num 4), ("exchanges", .num 5)]),
        ("queue_totals", .obj
          [("messages_ready", .num 7), ("messages_unacknowledged", .num 8)]),
        ("message_stats", .obj
          [("publish", .num 9), ("ack", .num 10), ("deliver", .num 11),
           ("confirm", .num 12), ("redeliver", .num 13), ("deliver_get", .num 14),
           ("deliver_no_ack", .num 15)])]

/-- The extraction result on `exMissJson`. -/
def exMissData : OverviewData :=
  ⟨[("channels", 1), ("connections", 2), ("consumers", 3), ("queues", 4),
    ("exchanges", 5)],
   [("messages_ready", 7), ("messages_unacknowledged", 8)],
   [("publish", 9), ("ack", 10), ("deliver", 11), ("confirm", 12),
    ("redeliver", 13), ("deliver_get", 14), ("deliver_no_ack", 15)],
   "n"⟩

/-- The fifteen points `getOverview` emits on `exMissJson`: the missing
`messages` field is written as `0`. -/
def exMissPoints : List MetricPoint :=
  [⟨"channels_total", "n", 1⟩, ⟨"connections_total", "n", 2⟩,
   ⟨"consumers_total", "n", 3⟩, ⟨"queues_total", "n", 4⟩,
   ⟨"exchanges_total", "n", 5⟩, ⟨"messages", "n", 0⟩,
   ⟨"messages_ready", "n", 7⟩, ⟨"messages_unacknowledged", "n", 8⟩,
   ⟨"messages_redelivered", "n", 13⟩, ⟨"messages_confirmed", "n", 12⟩,
   ⟨"messages_delivered", "n", 11⟩, ⟨"messages_published", "n", 9⟩,
   ⟨"messages_acked", "n", 10⟩, ⟨"messages_delivered_get", "n", 14⟩,
   ⟨"messages_delivered_no_ack", "n", 15⟩]

/-- A registry that already holds `messages{node="n"} = 42` from an earlier
poll. -/
def exPriorRegistry : Registry := [(("messages", "n"), 42)]

/-- An overview response whose `object_totals` group is not an object: the
unchecked assertion panics during extraction. -/
def exBadOverviewJson : Json := .obj [("object_totals", .num 3)]

/-- An overview response with well-formed groups but a non-string `node`
field. -/
def exNoNodeJson : Json :=
  .obj [("object_totals", .obj [("channels", .num 1)]),
        ("queue_totals", .obj []),
        ("message_stats", .obj []),
        ("node", .num 5)]

/-- A configured node with no interval override. -/
def exNode : Node := ⟨"n1", "http://localhost:15672", "guest", "guest", ""⟩

/-- A second configured node with an interval override. -/
def exNodeY : Node := ⟨"n2", "http://localhost:15673", "guest", "guest", "45s"⟩

/-- A configuration with one node and a global 30s interval string. -/
def exConfig : Config := ⟨[exNode], "9090", "30s"⟩

/-- A `time.ParseDuration` oracle that parses exactly `"30s"`. -/
def exParse : String → Option Int :=
  fun s => if s == "30s" then some (30 * second) else none

/-- A fully successful environment. -/
def exEnvGood : PollEnv := ⟨.body exOverviewJson, .body exQueues⟩

/-- An environment whose overview fetch suffers a transport error. -/
def exEnvFailOverview : PollEnv := ⟨.transportError, .body exQueues⟩

/-- An environment that fetches `exBadOverviewJson` for the overview. -/
def exEnvBadJson : PollEnv := ⟨.body exBadOverviewJson, .body exQueues⟩

/-- An environment trace that always fails the overview fetch. -/
def exEnvs : Nat → PollEnv := fun _ => exEnvFailOverview

/-! Helper lemmas about the registry and the iteration step. -/

theorem find?_filter_ne (r : Registry) (k k' : String × String) (h : k ≠ k') :
    (r.filter (fun e => !(e.1 == k'))).find? (fun e => e.1 == k)
      = r.find? (fun e => e.1 == k) := by
  induction r with
  | nil => rfl
  | cons e r ih =>
    by_cases he : e.1 = k'
    · have h1 : (!(e.1 == k')) = false := by simp [he]
      have h2 : (e.1 == k) = false := by
        simp only [beq_eq_false_iff_ne, ne_eq]
        intro hh
        exact h (by rw [← hh, he])
      simp [List.filter_cons, h1, List.find?_cons, h2, ih]
    · have h1 : (!(e.1 == k')) = true := by simp [he]
      cases hk : (e.1 == k) with
      | true => simp [List.filter_cons, h1, List.find?_cons, hk]
      | false => simp [List.filter_cons, h1, List.find?_cons, hk, ih]

theorem lookup_observe (r : Registry) (n l : String) (v : Rat) (k : String × String) :
    lookupVal (observe r n l v) k = if k = (n, l) then some v else lookupVal r k := by
  unfold observe lookupVal
  by_cases hk : k = (n, l)
  · subst hk
    simp [List.find?_cons]
  · have hne : (((n, l), v).1 == k) = false := by
      simp only [beq_eq_false_iff_ne, ne_eq]
      intro hh
      exact hk (by rw [hh])
    simp [List.find?_cons, hne, if_neg hk, find?_filter_ne r k (n, l) hk]

theorem lookup_applyPoints (ps : List MetricPoint) (r : Registry) (k : String × String) :
    lookupVal (applyPoints r ps) k =
      match lastValue ps k with
      | some v => some v
      | none => lookupVal r k := by
  induction ps generalizing r with
  | nil => rfl
  | cons p ps ih =>
    show lookupVal (applyPoints (observe r p.name p.node p.value) ps) k = _
    rw [ih]
    cases hl : lastValue ps k with
    | some v => simp [lastValue, hl]
    | none =>
      simp only [lastValue, hl, lookup_observe]
      by_cases hk : k = (p.name, p.node) <;> simp [hk]

theorem extract_nodename {j : Json} {d : OverviewData}
    (h : extractOverview j = .ok d) : d.nodename = nodenameOf j := by
  unfold extractOverview at h
  repeat' split at h
  all_goals first
    | exact Except.noConfusion h
    | (injection h with h2; rw [← h2])

theorem requestData_err1 (p : String → Option Int) (node : Node) (env : PollEnv)
    (r : Registry) (e : GoPanic) (h : runOverview env r = .error e) :
    requestData p node env r = ⟨r, 10 * second, false⟩ := by
  simp only [requestData, h]

theorem requestData_err2 (p : String → Option Int) (node : Node) (env : PollEnv)
    (r r1 : Registry) (e : GoPanic) (h1 : runOverview env r = .ok r1)
    (h2 : runQueues env r1 = .error e) :
    requestData p node env r = ⟨r1, 10 * second, false⟩ := by
  simp only [requestData, h1, h2]

theorem requestData_ok_eq (p : String → Option Int) (node : Node) (env : PollEnv)
    (r r1 r2 : Registry) (h1 : runOverview env r = .ok r1)
    (h2 : runQueues env r1 = .ok r2) :
    requestData p node env r =
      match p node.Interval with
      | some dt => ⟨r2, dt, false⟩
      | none => ⟨r2, 30 * second, true⟩ := by
  simp only [requestData, h1, h2]

theorem runOverview_ok {env : PollEnv} {r r1 : Registry}
    (h : runOverview env r = .ok r1) : overviewFails env = false := by
  obtain ⟨o, q⟩ := env
  cases o with
  | transportError => exact Except.noConfusion h
  | body j =>
    have h' : getOverview j r = .ok r1 := h
    show (match extractOverview j with
          | Except.error _ => true
          | Except.ok _ => false) = false
    cases hex : extractOverview j with
    | error e =>
      exfalso
      have hge : getOverview j r = .error e := by
        unfold getOverview
        rw [hex]
        rfl
      rw [hge] at h'
      exact Except.noConfusion h'
    | ok d => rfl

theorem runQueues_ok {env : PollEnv} {r r1 : Registry}
    (h : runQueues env r = .ok r1) : queuesFails env = false := by
  obtain ⟨o, q⟩ := env
  cases q with
  | transportError => exact Except.noConfusion h
  | body resp =>
    have h' : getNumberOfMessages resp r = .ok r1 := h
    show (match mapQueueMessages resp with
          | Except.error _ => true
          | Except.ok _ => false) = false
    cases hmq : mapQueueMessages resp with
    | error e =>
      exfalso
      have hge : getNumberOfMessages resp r = .error e := by
        unfold getNumberOfMessages
        rw [hmq]
        rfl
      rw [hge] at h'
      exact Except.noConfusion h'
    | ok pt => rfl

theorem overviewFails_false {env : PollEnv} (h : overviewFails env = false) :
    ∃ j d, env.overview = .body j ∧ extractOverview j = .ok d := by
  obtain ⟨o, q⟩ := env
  cases o with
  | transportError => exact Bool.noConfusion h
  | body j =>
    have h' : (match extractOverview j with
               | Except.error _ => true
               | Except.ok _ => false) = false := h
    cases hex : extractOverview j with
    | error e => rw [hex] at h'; exact Bool.noConfusion h'
    | ok d => exact ⟨j, d, rfl, hex⟩

theorem queuesFails_false {env : PollEnv} (h : queuesFails env = false) :
    ∃ resp p, env.queues = .body resp ∧ mapQueueMessages resp = .ok p := by
  obtain ⟨o, q⟩ := env
  cases q with
  | transportError => exact Bool.noConfusion h
  | body resp =>
    have h' : (match mapQueueMessages resp with
               | Except.error _ => true
               | Except.ok _ => false) = false := h
    cases hmq : mapQueueMessages resp with
    | error e => rw [hmq] at h'; exact Bool.noConfusion h'
    | ok pt => exact ⟨resp, pt, rfl, hmq⟩

theorem requestData_of_fail (p : String → Option Int) (node : Node) (env : PollEnv)
    (r : Registry) (h : pollFails env = true) :
    (requestData p node env r).sleep = 10 * second := by
  cases ho : runOverview env r with
  | error e => rw [requestData_err1 p node env r e ho]
  | ok r1 =>
    cases hq : runQueues env r1 with
    | error e => rw [requestData_err2 p node env r r1 e ho hq]
    | ok r2 =>
      exfalso
      have h1 := runOverview_ok ho
      have h2 := runQueues_ok hq
      unfold pollFails at h
      rw [h1, h2] at h
      exact Bool.noConfusion h

theorem requestData_of_success (p : String → Option Int) (node : Node) (env : PollEnv)
    (r : Registry) (h : pollFails env = false) :
    (requestData p node env r).sleep =
        (match p node.Interval with
         | some dt => dt
         | none => 30 * second)
      ∧ (requestData p node env r).warned = (p node.Interval).isNone := by
  have h1 : overviewFails env = false := by
    revert h
    unfold pollFails
    cases overviewFails env <;> simp
  have h2 : queuesFails env = false := by
    revert h
    unfold pollFails
    cases queuesFails env <;> simp
  obtain ⟨j, d, henv, hex⟩ := overviewFails_false h1
  obtain ⟨resp, pt, henq, hmq⟩ := queuesFails_false h2
  have ho : runOverview env r = .ok (applyPoints r (overviewPoints d)) := by
    unfold runOverview
    rw [henv]
    show getOverview j r = _
    unfold getOverview
    rw [hex]
    rfl
  have hq : runQueues env (applyPoints r (overviewPoints d))
      = .ok (observe (applyPoints r (overviewPoints d)) pt.name pt.node pt.value) := by
    unfold runQueues
    rw [henq]
    show getNumberOfMessages resp _ = _
    unfold getNumberOfMessages
    rw [hmq]
    rfl
  rw [requestData_ok_eq p node env r _ _ ho hq]
  cases p node.Interval <;> simp

theorem extractOverview_eq (j : Json) (ot qt ms : List (String × Json)) (m : FloatMap)
    (hot : j.get "object_totals" = some (.obj ot))
    (hsf : strictFloats ot = .ok m)
    (hqt : j.get "queue_totals" = some (.obj qt))
    (hms : j.get "message_stats" = some (.obj ms)) :
    extractOverview j = .ok ⟨m, tolerantFloats qt, tolerantFloats ms, nodenameOf j⟩ := by
  simp only [extractOverview, asObjFields, hot, hqt, hms, hsf]

theorem sumMessages_of_all_num (l : List QueueObj)
    (h : l.all (fun q => isNumField q "messages") = true) :
    ∀ acc : Rat, sumMessages l acc = .ok (acc + specSumOfMessages l) := by
  induction l with
  | nil => intro acc; simp [sumMessages, specSumOfMessages]
  | cons q rest ih =>
    intro acc
    rw [List.all_cons, Bool.and_eq_true] at h
    obtain ⟨hq, hrest⟩ := h
    unfold isNumField at hq
    cases hget : QueueObj.get q "messages" with
    | none => rw [hget] at hq; exact Bool.noConfusion hq
    | some jv =>
      cases jv with
      | num v =>
        have h1 : sumMessages (q :: rest) acc = sumMessages rest (acc + v) := by
          simp only [sumMessages, hget]
        have h2 : specSumOfMessages (q :: rest) = v + specSumOfMessages rest := by
          simp [specSumOfMessages, numFieldValue, hget]
        rw [h1, ih hrest (acc + v), h2, add_assoc]
      | null => rw [hget] at hq; exact Bool.noConfusion hq
      | bool b => rw [hget] at hq; exact Bool.noConfusion hq
      | str s => rw [hget] at hq; exact Bool.noConfusion hq
      | arr xs => rw [hget] at hq; exact Bool.noConfusion hq
      | obj fs => rw [hget] at hq; exact Bool.noConfusion hq

theorem goodIter_lookups (p : String → Option Int) (Y : Node) (label : String)
    (ch co cu qs ex m mr mu pb ak dl cf rd dg dn c1 c2 : Rat) (r : Registry) :
    goodIterLookups
      ((requestData p Y (goodEnv label ch co cu qs ex m mr mu pb ak dl cf rd dg dn c1 c2) r).registry)
      label ch co cu qs ex m mr mu pb ak dl cf rd dg dn (c1 + c2) := by
  have ho : runOverview (goodEnv label ch co cu qs ex m mr mu pb ak dl cf rd dg dn c1 c2) r
      = .ok (applyPoints r (overviewPoints (goodData label ch co cu qs ex m mr mu pb ak dl cf rd dg dn))) := by
    show getOverview (mkOverviewJson label ch co cu qs ex m mr mu pb ak dl cf rd dg dn) r = _
    unfold getOverview
    rw [show extractOverview (mkOverviewJson label ch co cu qs ex m mr mu pb ak dl cf rd dg dn)
        = .ok (goodData label ch co cu qs ex m mr mu pb ak dl cf rd dg dn) from rfl]
    rfl
  have hq : runQueues (goodEnv label ch co cu qs ex m mr mu pb ak dl cf rd dg dn c1 c2)
        (applyPoints r (overviewPoints (goodData label ch co cu qs ex m mr mu pb ak dl cf rd dg dn)))
      = .ok (observe
          (applyPoints r (overviewPoints (goodData label ch co cu qs ex m mr mu pb ak dl cf rd dg dn)))
          "messages_total" label (0 + c1 + c2)) := by
    show getNumberOfMessages (mkQueuesJson label c1 c2) _ = _
    unfold getNumberOfMessages
    rw [show mapQueueMessages (mkQueuesJson label c1 c2)
        = .ok ⟨"messages_total", label, 0 + c1 + c2⟩ from rfl]
    rfl
  have hreg : (requestData p Y (goodEnv label ch co cu qs ex m mr mu pb ak dl cf rd dg dn c1 c2) r).registry
      = observe
          (applyPoints r (overviewPoints (goodData label ch co cu qs ex m mr mu pb ak dl cf rd dg dn)))
          "messages_total" label (0 + c1 + c2) := by
    rw [requestData_ok_eq p Y _ r _ _ ho hq]
    cases p Y.Interval <;> rfl
  unfold goodIterLookups
  rw [hreg]
  refine ⟨?_, ?_, ?_, ?_, ?_, ?_, ?_, ?_, ?_, ?_, ?_, ?_, ?_, ?_, ?_, ?_⟩
  all_goals rw [lookup_observe]
  all_goals simp +decide [lookup_applyPoints, lastValue, overviewPoints, goodData,
    FloatMap.getZ, FloatMap.findVal, List.find?, Prod.mk.injEq]

/-! The claims. -/

/-- Claim C1 (counterexample): on a valid overview response with all
target numeric fields present and a string `node` field, the mapper
produces fifteen MetricPoints, not eleven. -/
theorem c1_eleven_counterexample :
    allTargetFieldsPresent exOverviewJson = true
    ∧ exOverviewJson.get "node" = some (Json.str "rabbit@x")
    ∧ (mapOverview exOverviewJson).map List.length = .ok 15
    ∧ (mapOverview exOverviewJson).map List.length ≠ .ok 11 := by
  refine ⟨by decide, rfl, rfl, by decide⟩

/-- Claim C1 (amended): for every valid overview response in which all of
the target numeric fields are present, `mapOverview` produces exactly
fifteen MetricPoints, each bearing one of the documented metric names and
the node label equal to the snapshot's `node` string field. -/
theorem c1_overview_mapping (j : Json) (d : OverviewData) (s : String)
    (hok : extractOverview j = .ok d)
    (_hall : allTargetFieldsPresent j = true)
    (hnode : j.get "node" = some (.str s)) :
    mapOverview j = .ok (overviewPoints d)
    ∧ (overviewPoints d).length = 15
    ∧ (overviewPoints d).all
        (fun pt => overviewMetricNames.contains pt.name && (pt.node == s)) = true := by
  have hs : d.nodename = s := by
    rw [extract_nodename hok]
    unfold nodenameOf
    rw [hnode]
  refine ⟨by simp only [mapOverview, hok]; rfl, rfl, ?_⟩
  simp [overviewPoints, overviewMetricNames, hs]

theorem c1_overview_mapping_witness :
    extractOverview exOverviewJson = .ok exGoodData
    ∧ allTargetFieldsPresent exOverviewJson = true
    ∧ exOverviewJson.get "node" = some (Json.str "rabbit@x")
    ∧ (mapOverview exOverviewJson = .ok (overviewPoints exGoodData)
       ∧ (overviewPoints exGoodData).length = 15
       ∧ (overviewPoints exGoodData).all
           (fun pt => overviewMetricNames.contains pt.name && (pt.node == "rabbit@x")) = true) :=
  ⟨rfl, by decide, rfl,
   c1_overview_mapping exOverviewJson exGoodData "rabbit@x" rfl (by decide) rfl⟩

/-- Claim C2 (counterexample): on `exMissJson`, whose `queue_totals` lacks
the `messages` field, the mapper still emits a `messages` point with value
0 and the prior registry value 42 is overwritten by 0, contradicting the
skip policy. -/
theorem c2_skip_counterexample :
    lookupVal exPriorRegistry ("messages", "n") = some 42
    ∧ mapOverview exMissJson = .ok exMissPoints
    ∧ MetricPoint.mk "messages" "n" 0 ∈ exMissPoints
    ∧ (getOverview exMissJson exPriorRegistry).map
        (fun rg => lookupVal rg ("messages", "n")) = .ok (some 0)
    ∧ (getOverview exMissJson exPriorRegistry).map
        (fun rg => lookupVal rg ("messages", "n")) ≠ .ok (some 42) := by
  refine ⟨rfl, rfl, by decide, rfl, by decide⟩

/-- Claim C2 (amended): when the `messages` field is absent from (or
non-numeric in) `queue_totals`, the mapper still emits the `messages`
MetricPoint, with the zero value 0, and applying the cycle's writes leaves
the registry at 0 for that pair, overwriting any prior value. -/
theorem c2_zero_substitution (j : Json) (d : OverviewData) (r : Registry)
    (hok : extractOverview j = .ok d)
    (hmiss : FloatMap.findVal d.queueTotals "messages" = none) :
    mapOverview j = .ok (overviewPoints d)
    ∧ MetricPoint.mk "messages" d.nodename 0 ∈ overviewPoints d
    ∧ lookupVal (applyPoints r (overviewPoints d)) ("messages", d.nodename) = some 0 := by
  have hz : d.queueTotals.getZ "messages" = 0 := by
    simp [FloatMap.getZ, hmiss]
  refine ⟨by simp only [mapOverview, hok]; rfl, ?_, ?_⟩
  · simp [overviewPoints, hz]
  · rw [lookup_applyPoints]
    simp +decide [lastValue, overviewPoints, Prod.mk.injEq, hz]

theorem c2_zero_substitution_witness :
    extractOverview exMissJson = .ok exMissData
    ∧ FloatMap.findVal exMissData.queueTotals "messages" = none
    ∧ (mapOverview exMissJson = .ok (overviewPoints exMissData)
       ∧ MetricPoint.mk "messages" exMissData.nodename 0 ∈ overviewPoints exMissData
       ∧ lookupVal (applyPoints exPriorRegistry (overviewPoints exMissData))
           ("messages", exMissData.nodename) = some 0) :=
  ⟨rfl, rfl, c2_zero_substitution exMissJson exMissData exPriorRegistry rfl rfl⟩

/-- Claim C3: applied to an empty queues array, the mapper does not return
a defined value or error contractually: it hits the empty-slice index
`response[0]` and panics (modelled as the `indexOutOfRange` runtime
fault), which only the poll loop's blanket `recover` contains. -/
theorem c3_empty_queues_panics :
    mapQueueMessages ([] : List QueueObj) = .error .indexOutOfRange
    ∧ getNumberOfMessages ([] : List QueueObj) exPriorRegistry = .error .indexOutOfRange :=
  ⟨rfl, rfl⟩

/-- Claim C4: for every non-empty queues array whose first element carries
a string `node` and whose elements all carry numeric `messages`, the
mapper yields the single `messages_total` point labelled with the first
element's node, valued at the sum of the `messages` fields. -/
theorem c4_queue_sum (q0 : QueueObj) (rest : List QueueObj) (s : String)
    (hnode : QueueObj.get q0 "node" = some (.str s))
    (hnums : (q0 :: rest).all (fun q => isNumField q "messages") = true) :
    mapQueueMessages (q0 :: rest)
      = .ok ⟨"messages_total", s, specSumOfMessages (q0 :: rest)⟩ := by
  have hfn : firstNodename (q0 :: rest) = .ok s := by
    simp only [firstNodename, hnode]
  have hsum := sumMessages_of_all_num (q0 :: rest) hnums 0
  simp only [mapQueueMessages, hfn, hsum, zero_add]

theorem c4_queue_sum_witness :
    QueueObj.get exQ0 "node" = some (Json.str "rabbit@a")
    ∧ (exQ0 :: [exQ1]).all (fun q => isNumField q "messages") = true
    ∧ mapQueueMessages exQueues
        = .ok ⟨"messages_total", "rabbit@a", specSumOfMessages exQueues⟩
    ∧ specSumOfMessages exQueues = 10 :=
  ⟨rfl, rfl, c4_queue_sum exQ0 [exQ1] "rabbit@a" rfl rfl,
   by simp [specSumOfMessages, exQueues, exQ0, exQ1, numFieldValue, QueueObj.get, List.find?]
      norm_num⟩

/-- Claim C5: any error in fetch/decode/map during iteration `n` of the
poll loop makes that iteration sleep exactly the fixed 10-second cooldown,
and the loop then begins iteration `n + 1` from the resulting registry:
the error neither propagates (the iteration still returns an
`IterResult`) nor terminates the loop. -/
theorem c5_failure_cooldown (p : String → Option Int) (node : Node)
    (envs : Nat → PollEnv) (r0 : Registry) (n : Nat)
    (hfail : pollFails (envs n) = true) :
    (runRequestLoop p node envs r0 n).sleep = 10 * second
    ∧ runRequestLoop p node envs r0 (n + 1)
        = requestData p node (envs (n + 1)) (runRequestLoop p node envs r0 n).registry := by
  refine ⟨?_, rfl⟩
  cases n with
  | zero => exact requestData_of_fail p node (envs 0) r0 hfail
  | succ k =>
    exact requestData_of_fail p node (envs (k + 1))
      (runRequestLoop p node envs r0 k).registry hfail

theorem c5_failure_cooldown_witness :
    pollFails (exEnvs 0) = true
    ∧ ((runRequestLoop exParse exNode exEnvs [] 0).sleep = 10 * second
       ∧ runRequestLoop exParse exNode exEnvs [] 1
           = requestData exParse exNode (exEnvs 1) (runRequestLoop exParse exNode exEnvs [] 0).registry) :=
  ⟨rfl, c5_failure_cooldown exParse exNode exEnvs [] 0 rfl⟩

/-- Claim C6: the node launched by `updateNodesStats` carries the
node-level interval string when non-empty, otherwise the global default;
on a successful cycle the loop sleeps the duration the oracle parses from
that string, and an unparsable string results in the 30-second default
together with a warning. -/
theorem c6_interval_resolution (p : String → Option Int) (config : Config)
    (node : Node) (env : PollEnv) (r : Registry)
    (hmem : node ∈ config.Nodes) (hok : pollFails env = false) :
    resolveInterval config node ∈ updateNodesStats config
    ∧ (resolveInterval config node).Interval
        = (if node.Interval.length = 0 then config.Interval else node.Interval)
    ∧ (requestData p (resolveInterval config node) env r).sleep
        = (match p (resolveInterval config node).Interval with
           | some dt => dt
           | none => 30 * second)
    ∧ (requestData p (resolveInterval config node) env r).warned
        = (p (resolveInterval config node).Interval).isNone := by
  refine ⟨List.mem_map_of_mem _ hmem, ?_, ?_, ?_⟩
  · unfold resolveInterval
    split <;> rfl
  · exact (requestData_of_success p (resolveInterval config node) env r hok).1
  · exact (requestData_of_success p (resolveInterval config node) env r hok).2

theorem c6_interval_resolution_witness :
    exNode ∈ exConfig.Nodes
    ∧ pollFails exEnvGood = false
    ∧ (resolveInterval exConfig exNode ∈ updateNodesStats exConfig
       ∧ (resolveInterval exConfig exNode).Interval
           = (if exNode.Interval.length = 0 then exConfig.Interval else exNode.Interval)
       ∧ (requestData exParse (resolveInterval exConfig exNode) exEnvGood []).sleep
           = (match exParse (resolveInterval exConfig exNode).Interval with
              | some dt => dt
              | none => 30 * second)
       ∧ (requestData exParse (resolveInterval exConfig exNode) exEnvGood []).warned
           = (exParse (resolveInterval exConfig exNode).Interval).isNone) :=
  ⟨by decide, by decide,
   c6_interval_resolution exParse exConfig exNode exEnvGood [] (by decide) (by decide)⟩

/-- Claim C7: `observe` overwrites: after setting a (name, label) pair to
`v` and then to `w`, the registry reads back `w`; in particular 5 then 9
reads back 9 and never 14. -/
theorem c7_overwrite (r : Registry) (name label : String) (v w : Rat) :
    lookupVal (observe (observe r name label v) name label w) (name, label) = some w
    ∧ lookupVal (observe (observe r name label 5) name label 9) (name, label) = some 9
    ∧ lookupVal (observe (observe r name label 5) name label 9) (name, label) ≠ some 14 := by
  refine ⟨?_, ?_, ?_⟩ <;> rw [lookup_observe] <;> simp

/-- Claim C8: when node X's overview fetch fails with a transport error,
X's iteration leaves the registry untouched, so node Y's next iteration is
identical to what it would have been without X's failure; and on a fully
successful snapshot Y's iteration updates every one of its metric values
correctly. -/
theorem c8_node_isolation (p p2 : String → Option Int) (X Y : Node)
    (envX : PollEnv) (r : Registry) (label : String)
    (ch co cu qs ex m mr mu pb ak dl cf rd dg dn c1 c2 : Rat)
    (hfail : envX.overview = .transportError) :
    (requestData p X envX r).registry = r
    ∧ requestData p2 Y (goodEnv label ch co cu qs ex m mr mu pb ak dl cf rd dg dn c1 c2)
          ((requestData p X envX r).registry)
        = requestData p2 Y (goodEnv label ch co cu qs ex m mr mu pb ak dl cf rd dg dn c1 c2) r
    ∧ goodIterLookups
        ((requestData p2 Y (goodEnv label ch co cu qs ex m mr mu pb ak dl cf rd dg dn c1 c2)
            ((requestData p X envX r).registry)).registry)
        label ch co cu qs ex m mr mu pb ak dl cf rd dg dn (c1 + c2) := by
  have h1 : requestData p X envX r = ⟨r, 10 * second, false⟩ := by
    apply requestData_err1 p X envX r .httpError
    unfold runOverview
    rw [hfail]
  rw [h1]
  exact ⟨rfl, rfl, goodIter_lookups p2 Y label ch co cu qs ex m mr mu pb ak dl cf rd dg dn c1 c2 r⟩

theorem c8_node_isolation_witness :
    exEnvFailOverview.overview = FetchOutcome.transportError
    ∧ ((requestData exParse exNode exEnvFailOverview []).registry = []
       ∧ requestData exParse exNodeY
             (goodEnv "rabbit@b" 1 2 3 4 5 6 7 8 9 10 11 12 13 14 15 3 4)
             ((requestData exParse exNode exEnvFailOverview []).registry)
           = requestData exParse exNodeY
             (goodEnv "rabbit@b" 1 2 3 4 5 6 7 8 9 10 11 12 13 14 15 3 4) []
       ∧ goodIterLookups
           ((requestData exParse exNodeY
               (goodEnv "rabbit@b" 1 2 3 4 5 6 7 8 9 10 11 12 13 14 15 3 4)
               ((requestData exParse exNode exEnvFailOverview []).registry)).registry)
           "rabbit@b" 1 2 3 4 5 6 7 8 9 10 11 12 13 14 15 (3 + 4)) :=
  ⟨rfl, c8_node_isolation exParse exParse exNode exNodeY exEnvFailOverview []
     "rabbit@b" 1 2 3 4 5 6 7 8 9 10 11 12 13 14 15 3 4 rfl⟩

/-- Claim C9: when the overview response makes extraction panic (missing
group, group not an object, or a non-numeric value inside
`object_totals`), the panic happens before the first registry write:
`getOverview` returns the error and the whole iteration leaves the
registry exactly unchanged, entering the cooldown sleep. -/
theorem c9_extraction_atomic (p : String → Option Int) (node : Node)
    (env : PollEnv) (j : Json) (e : GoPanic) (r : Registry)
    (henv : env.overview = .body j)
    (herr : extractOverview j = .error e) :
    getOverview j r = .error e
    ∧ requestData p node env r = ⟨r, 10 * second, false⟩ := by
  have hge : getOverview j r = .error e := by
    unfold getOverview
    rw [herr]
    rfl
  refine ⟨hge, ?_⟩
  apply requestData_err1 p node env r e
  unfold runOverview
  rw [henv]
  exact hge

theorem c9_extraction_atomic_witness :
    exEnvBadJson.overview = FetchOutcome.body exBadOverviewJson
    ∧ extractOverview exBadOverviewJson = .error .typeAssertion
    ∧ (getOverview exBadOverviewJson exPriorRegistry = .error .typeAssertion
       ∧ requestData exParse exNode exEnvBadJson exPriorRegistry
           = ⟨exPriorRegistry, 10 * second, false⟩) :=
  ⟨rfl, rfl,
   c9_extraction_atomic exParse exNode exEnvBadJson exBadOverviewJson
     .typeAssertion exPriorRegistry rfl rfl⟩

/-- Claim C10: when the three numeric groups are well-formed but the
`node` field is absent or not a string, `getOverview` does not fail: it
uses the empty string as the label and writes every overview metric under
`node=""`. -/
theorem c10_missing_node_label (j : Json) (ot qt ms : List (String × Json))
    (m : FloatMap) (r : Registry)
    (hot : j.get "object_totals" = some (.obj ot))
    (hsf : strictFloats ot = .ok m)
    (hqt : j.get "queue_totals" = some (.obj qt))
    (hms : j.get "message_stats" = some (.obj ms))
    (hnode : nodeFieldNotString j = true) :
    getOverview j r
      = .ok (applyPoints r (overviewPoints ⟨m, tolerantFloats qt, tolerantFloats ms, ""⟩))
    ∧ (overviewPoints ⟨m, tolerantFloats qt, tolerantFloats ms, ""⟩).all
        (fun pt => pt.node == "") = true := by
  have hnn : nodenameOf j = "" := by
    unfold nodeFieldNotString at hnode
    unfold nodenameOf
    cases hget : j.get "node" with
    | none => rfl
    | some v =>
      cases v with
      | str s => rw [hget] at hnode; exact Bool.noConfusion hnode
      | null => rfl
      | bool b => rfl
      | num q => rfl
      | arr xs => rfl
      | obj fs => rfl
  have hex := extractOverview_eq j ot qt ms m hot hsf hqt hms
  rw [hnn] at hex
  constructor
  · unfold getOverview
    rw [hex]
    rfl
  · simp [overviewPoints]

theorem c10_missing_node_label_witness :
    exNoNodeJson.get "object_totals" = some (Json.obj [("channels", Json.num 1)])
    ∧ strictFloats [("channels", Json.num 1)] = .ok [("channels", 1)]
    ∧ exNoNodeJson.get "queue_totals" = some (Json.obj [])
    ∧ exNoNodeJson.get "message_stats" = some (Json.obj [])
    ∧ nodeFieldNotString exNoNodeJson = true
    ∧ (getOverview exNoNodeJson []
         = .ok (applyPoints [] (overviewPoints
             ⟨[("channels", 1)], tolerantFloats [], tolerantFloats [], ""⟩))
       ∧ (overviewPoints ⟨[("channels", 1)], tolerantFloats [], tolerantFloats [], ""⟩).all
           (fun pt => pt.node == "") = true) :=
  ⟨rfl, rfl, rfl, rfl, rfl,
   c10_missing_node_label exNoNodeJson [("channels", Json.num 1)] [] []
     [("channels", 1)] [] rfl rfl rfl rfl rfl⟩

end RabbitmqExporter
